import Mathlib

/-!
Verification of the lcd_spotify repository (a Raspberry-Pi LCD display for the
currently playing Spotify track) against its natural-language specification.

The Python sources are shallowly embedded:
* Python `str` is modelled as Lean `String` (a list of Unicode characters,
  matching Python's sequence-of-code-points view).
* Python `int` is modelled as `Int`; Python's `%` is floor-style modulo,
  which for a nonzero divisor coincides with `Int.fmod`.
* Stateful classes become Lean structures with explicit state passing.
* Calls into external collaborators (the spotipy SDK, the LCD driver,
  `unicodedata`) are modelled by passing the collaborator's response as an
  explicit argument; the only collaborator failure in scope is the
  transient `requests.exceptions.Timeout`.
* Python exceptions raised by the embedded code itself are modelled with
  `Except PyExn`.
-/

/-- Python exceptions that the embedded code can raise itself (as opposed to
collaborator failures, which are passed in as responses). -/
inductive PyExn where
  | unboundLocal
  | attributeErr
deriving DecidableEq

/-- Embedding of `tools.add_to_max` (also `LCD_Spotify.add_to_max`):
`(add1 + add2) % max_num` with Python's `%`, which is floor-style modulo
(`Int.fmod`) for a nonzero modulus.  Python raises `ZeroDivisionError` for a
zero modulus; every call site in the repository uses a positive modulus, where
`Int.fmod` agrees with Python exactly. -/
def add_to_max (add1 add2 max_num : Int) : Int :=
  Int.fmod (add1 + add2) max_num

/-- Embedding of `tools.substr_wrap` (the identical method
`LCD_Spotify.substr_wrap` is the same code): return `string` unchanged when it
fits in `length` characters, otherwise read `length` characters cyclically from
`string ++ wrap_pad` starting at index `start`.  Indexing is always in range in
the second branch (the modulus is positive), so the `List.getD` default is
never consulted. -/
def substr_wrap (string : String) (start : Int) (length : Nat) (wrap_pad : String) : String :=
  if string.data.length ≤ length then string
  else
    let buffer := string ++ wrap_pad
    String.mk ((List.range length).map fun i =>
      buffer.data.getD (add_to_max start i buffer.data.length).toNat ' ')

/-- Reference definition of the cyclic substring wrap, written from the spec's
words (section 4.4): if `len(text) <= length` return `text` unchanged,
otherwise let `buffer = text + pad` and return the concatenation of
`buffer[(start + i) mod len(buffer)]` for `i = 0 .. length - 1`.  Stated with
mathematical `mod` (`Int.emod`, nonnegative for a positive modulus). -/
def wrapSpec (text : String) (start : Int) (length : Nat) (pad : String) : String :=
  if text.data.length ≤ length then text
  else
    let buffer := text ++ pad
    String.mk ((List.range length).map fun i =>
      buffer.data.getD (((start + i) % (buffer.data.length : Int)).toNat) ' ')

/-- Embedding of the `TrackData` dataclass. The same six fields are declared in
`spotify_manager.py` (with a hand-written `__eq__`, see `TrackData.eq`) and in
the legacy `lcd_spotify.py` (a plain dataclass, whose generated equality
compares all six fields, see `TrackData.dataclassEq`). -/
structure TrackData where
  id : String
  name : String
  album : String
  artist : String
  is_playing : Bool
  is_liked : Bool
deriving DecidableEq

/-- Embedding of `spotify_manager.TrackData.__eq__`: two snapshots compare
equal exactly when the four identity fields id, name, album, artist agree.
The `other is self` fast path of the source returns `True` only when the
fields trivially agree, and the `isinstance` guard always succeeds between two
snapshots, so neither needs a separate case here. -/
def TrackData.eq (a b : TrackData) : Bool :=
  a.id == b.id && a.name == b.name && a.album == b.album && a.artist == b.artist

/-- Embedding of `spotify_manager.TrackData.__ne__`: negation of `__eq__`. -/
def TrackData.ne (a b : TrackData) : Bool :=
  !(TrackData.eq a b)

/-- Equality generated for the plain dataclass `lcd_spotify.TrackData`
(no hand-written `__eq__` there): all six fields are compared. -/
def TrackData.dataclassEq (a b : TrackData) : Bool :=
  a.id == b.id && a.name == b.name && a.album == b.album && a.artist == b.artist
    && a.is_playing == b.is_playing && a.is_liked == b.is_liked

/-- Python `!=` between two optional snapshots under the hand-written
equality: `None != None` is false, `None` differs from any snapshot, and two
snapshots are compared with `TrackData.ne`. -/
def optNe (a b : Option TrackData) : Bool :=
  match a, b with
  | none, none => false
  | none, some _ => true
  | some _, none => true
  | some x, some y => TrackData.ne x y

/-- Python `!=` between two optional snapshots under the dataclass equality of
the legacy `lcd_spotify.TrackData`. -/
def optDataclassNe (a b : Option TrackData) : Bool :=
  match a, b with
  | none, none => false
  | none, some _ => true
  | some _, none => true
  | some x, some y => !(TrackData.dataclassEq x y)

/-- State of `spotify_manager.SpotifyManager`: the current and the
last-rendered track snapshots (the SDK handle itself is a collaborator and is
modelled by passing its responses as arguments). -/
structure SpotifyManager where
  current_track : Option TrackData
  last_track : Option TrackData
deriving DecidableEq

/-- Requests that `SpotifyManager` can issue to the spotipy collaborator. -/
inductive SpotifyCall where
  | saved_tracks_delete (ids : List String)
  | saved_tracks_add (ids : List String)
  | next_track
deriving DecidableEq

/-- Response of one collaborator call that returns no payload: either it
succeeds or it raises a transient `requests.exceptions.Timeout`. -/
inductive ApiResp where
  | ok
  | timeout
deriving DecidableEq

/-- Embedding of `SpotifyManager.toggle_track_liked`: a no-op unless a current
track exists and is playing; otherwise the saved-tracks delete (when liked) or
add (when not) request is issued, and a transient timeout from the
collaborator is caught and logged (logging is not modelled).  The result lists
the issued collaborator calls next to the (unchanged) manager state; no
exception ever escapes, which the `Except` result makes explicit. -/
def SpotifyManager.toggle_track_liked (m : SpotifyManager) (resp : ApiResp) :
    Except PyExn (List SpotifyCall × SpotifyManager) :=
  match m.current_track with
  | none => Except.ok ([], m)
  | some t =>
    if t.is_playing then
      let calls := if t.is_liked then [SpotifyCall.saved_tracks_delete [t.id]]
                   else [SpotifyCall.saved_tracks_add [t.id]]
      match resp with
      | ApiResp.ok => Except.ok (calls, m)
      | ApiResp.timeout => Except.ok (calls, m)
    else Except.ok ([], m)

/-- Raw shape of the `current_user_playing_track` response item, restricted to
the keys the repository reads: `item.id`, `item.name`, `item.artists[*].name`,
`item.album.name`, `item.show.publisher`, `item.show.episode`. -/
structure RawItem where
  id : String
  name : String
  artists : List String
  album_name : String
  show_publisher : String
  show_episode : String
deriving DecidableEq

/-- Raw shape of the `current_user_playing_track` response, restricted to the
keys the repository reads. -/
structure RawPlaying where
  item : RawItem
  currently_playing_type : String
  is_playing : Bool
deriving DecidableEq

/-- Response of the collaborator's `current_user_playing_track` call: a
transient timeout, or a payload that is either `None` or a raw track. -/
inductive MainResp where
  | timeout
  | ok (t : Option RawPlaying)
deriving DecidableEq

/-- Response of the collaborator's `current_user_saved_tracks_contains` call
(the liked-subquery): a transient timeout, or a boolean verdict. -/
inductive LikedResp where
  | timeout
  | ok (b : Bool)
deriving DecidableEq

/-- Embedding of `SpotifyManager._get_artist_and_album_from_track`: for a
"track" join the artist names with ", " and take the album name; for an
"episode" take the show publisher and episode; otherwise both are empty. -/
def SpotifyManager.get_artist_and_album_from_track (track : RawPlaying) : String × String :=
  if track.currently_playing_type = "track" then
    (String.intercalate ", " track.item.artists, track.item.album_name)
  else if track.currently_playing_type = "episode" then
    (track.item.show_publisher, track.item.show_episode)
  else
    ("", "")

/-- Embedding of `SpotifyManager._ask_spotify_if_track_liked`: return the
collaborator's verdict, and catch a transient timeout by answering `false`. -/
def SpotifyManager.ask_spotify_if_track_liked (resp : LikedResp) : Bool :=
  match resp with
  | LikedResp.timeout => false
  | LikedResp.ok b => b

/-- Embedding of `SpotifyManager.retrieve_track_data`: poll the collaborator
for the currently playing track.  A transient timeout of the main query is
caught, leaving the state untouched; a `None` payload clears the snapshot; a
raw track replaces the snapshot wholesale, asking the liked-subquery for the
`is_liked` field (whose own timeout is caught inside and answered `false`).
The modelled failure mode (timeout) is always caught, so the function is
total. -/
def SpotifyManager.retrieve_track_data (m : SpotifyManager)
    (main : MainResp) (liked : LikedResp) : SpotifyManager :=
  match main with
  | MainResp.timeout => m
  | MainResp.ok none => { m with current_track := none }
  | MainResp.ok (some track) =>
    let aa := SpotifyManager.get_artist_and_album_from_track track
    let track_liked := SpotifyManager.ask_spotify_if_track_liked liked
    { m with current_track := some (TrackData.mk track.item.id track.item.name aa.2 aa.1
        track.is_playing track_liked) }

/-- Embedding of `SpotifyManager.get_artist`: the current track's artist, or
the empty string when there is no snapshot. -/
def SpotifyManager.get_artist (m : SpotifyManager) : String :=
  match m.current_track with
  | some t => t.artist
  | none => ""

/-- Embedding of `SpotifyManager.get_album_name`. -/
def SpotifyManager.get_album_name (m : SpotifyManager) : String :=
  match m.current_track with
  | some t => t.album
  | none => ""

/-- Embedding of `SpotifyManager.get_track_name`. -/
def SpotifyManager.get_track_name (m : SpotifyManager) : String :=
  match m.current_track with
  | some t => t.name
  | none => ""

/-- Embedding of `SpotifyManager.update_last_track`: when the last track
differs from the current track under the hand-written (identity-field)
inequality, copy current into last; return whether the copy happened. -/
def SpotifyManager.update_last_track (m : SpotifyManager) : Bool × SpotifyManager :=
  let flag := optNe m.last_track m.current_track
  (flag, if flag then { m with last_track := m.current_track } else m)

/-- The outlier translation table of `tools.py`, built there with
`str.maketrans` from the parallel LATIN and ASCII word lists and applied with
`str.translate`: each listed character is replaced by its ASCII digraph or
letter; every other character is left alone (`none` here). -/
def outliers (c : Char) : Option String :=
  if c = 'ä' then some "a"
  else if c = 'æ' then some "ae"
  else if c = 'ǽ' then some "ae"
  else if c = 'đ' then some "d"
  else if c = 'ð' then some "d"
  else if c = 'ƒ' then some "f"
  else if c = 'ħ' then some "h"
  else if c = 'ı' then some "i"
  else if c = 'ł' then some "l"
  else if c = 'ø' then some "o"
  else if c = 'ǿ' then some "o"
  else if c = 'ö' then some "o"
  else if c = 'œ' then some "oe"
  else if c = 'ß' then some "ss"
  else if c = 'ŧ' then some "t"
  else if c = 'þ' then some "th"
  else if c = 'ü' then some "u"
  else if c = 'Ä' then some "A"
  else if c = 'Æ' then some "AE"
  else if c = 'Ǽ' then some "AE"
  else if c = 'Đ' then some "D"
  else if c = 'Ð' then some "D"
  else if c = 'Ƒ' then some "F"
  else if c = 'Ħ' then some "H"
  else if c = 'I' then some "I"
  else if c = 'Ł' then some "L"
  else if c = 'Ø' then some "O"
  else if c = 'Ǿ' then some "O"
  else if c = 'Ö' then some "O"
  else if c = 'Œ' then some "OE"
  else if c = 'ẞ' then some "SS"
  else if c = 'Ŧ' then some "T"
  else if c = 'Þ' then some "TH"
  else if c = 'Ü' then some "U"
  else none

/-- Application of the outlier table to a character list, as Python's
`str.translate` does. -/
def translateOutliers (s : List Char) : List Char :=
  s.foldr (fun c acc => (match outliers c with | some r => r.data | none => [c]) ++ acc) []

/-- Combining macron U+0304. -/
def combiningMacron : Char := Char.ofNat 0x304

/-- Combining diaeresis U+0308. -/
def combiningDiaeresis : Char := Char.ofNat 0x308

/-- Combining acute accent U+0301. -/
def combiningAcute : Char := Char.ofNat 0x301

/-- Canonical decomposition of one character, as performed by Python's
`unicodedata.normalize("NFD", ...)`.  The table is restricted to the
characters that the theorems below evaluate the code on, plus the
Latin-1/Latin-Extended letters nearby; every unlisted character decomposes to
itself.  The entries are taken from the Unicode Character Database
(UnicodeData.txt canonical decomposition mappings), which is the data
`unicodedata` implements.  Canonical reordering of combining marks is omitted:
it only permutes characters of nonzero combining class, all of which
`remove_diacritics` discards, so it cannot affect any value computed here. -/
def nfdChar (c : Char) : List Char :=
  if c = 'ǣ' then ['æ', combiningMacron]
  else if c = 'Ǣ' then ['Æ', combiningMacron]
  else if c = 'ǽ' then ['æ', combiningAcute]
  else if c = 'Ǽ' then ['Æ', combiningAcute]
  else if c = 'ǿ' then ['ø', combiningAcute]
  else if c = 'Ǿ' then ['Ø', combiningAcute]
  else if c = 'ä' then ['a', combiningDiaeresis]
  else if c = 'Ä' then ['A', combiningDiaeresis]
  else if c = 'ö' then ['o', combiningDiaeresis]
  else if c = 'Ö' then ['O', combiningDiaeresis]
  else if c = 'ü' then ['u', combiningDiaeresis]
  else if c = 'Ü' then ['U', combiningDiaeresis]
  else if c = 'é' then ['e', combiningAcute]
  else if c = 'É' then ['E', combiningAcute]
  else [c]

/-- Normalization to NFD of a character list: concatenation of the canonical
decompositions of its characters. -/
def nfd (s : List Char) : List Char :=
  s.foldr (fun c acc => nfdChar c ++ acc) []

/-- Canonical combining class, as returned by Python's
`unicodedata.combining`: nonzero exactly for combining marks.  Restricted to
the marks producible by `nfdChar` (all of class 230 in the Unicode Character
Database); every other character has class 0. -/
def combining (c : Char) : Nat :=
  if c = combiningMacron ∨ c = combiningDiaeresis ∨ c = combiningAcute then 230 else 0

/-- Embedding of `tools.remove_diacritics`: translate the outlier characters
to ASCII, decompose to NFD, and drop every combining mark. -/
def remove_diacritics (s : String) : String :=
  String.mk ((nfd (translateOutliers s.data)).filter (fun c => combining c = 0))

/-- Four spaces, the `WRAP_PAD` constant of `lcd_spotify.py`. -/
def WRAP_PAD : String := "    "

/-- The one-character string `chr(0)` (`extended_lcd.CGRAM_CHR1`), the display
character code for the custom heart glyph slot. -/
def CGRAM_CHR1 : String := String.mk [Char.ofNat 0]

/-- State of the legacy `LCD_Spotify` class (`lcd_spotify.py`): the poll
divider `bip` (the `BIPS` divisor is the constant 4 set in `__init__`), the
countdown origin and IP timeout, the LCD geometry, and the two snapshots.
Times are modelled as integers; only their ordering matters here. -/
structure LCD_Spotify where
  bip : Nat
  countdown : Int
  timeout : Int
  width : Nat
  rows : Nat
  current_track : Option TrackData
  last_track : Option TrackData
deriving DecidableEq

/-- Embedding of the legacy `LCD_Spotify.retrieve_track_data`: unlike the
newer manager, the artist/album if-chain has no final else (so a playing type
other than "track" or "episode" leaves `artist_name`/`album_name` unbound and
the later `TrackData(...)` construction raises `UnboundLocalError`, which the
`except requests.exceptions.RequestException` clause does not catch), and the
liked-subquery runs only for a playing track, inside the same try block (so
its transient timeout is caught by the outer handler and the whole poll is
dropped, preserving the snapshot). -/
def LCD_Spotify.retrieve_track_data (current_track : Option TrackData)
    (main : MainResp) (liked : LikedResp) : Except PyExn (Option TrackData) :=
  match main with
  | MainResp.timeout => Except.ok current_track
  | MainResp.ok none => Except.ok none
  | MainResp.ok (some track) =>
    let artistAlbum : Option (String × String) :=
      if track.currently_playing_type = "track" then
        some (String.intercalate ", " track.item.artists, track.item.album_name)
      else if track.currently_playing_type = "episode" then
        some (track.item.show_publisher, track.item.show_episode)
      else none
    if track.is_playing then
      match liked with
      | LikedResp.timeout => Except.ok current_track
      | LikedResp.ok b =>
        match artistAlbum with
        | none => Except.error PyExn.unboundLocal
        | some aa =>
          Except.ok (some (TrackData.mk track.item.id track.item.name aa.2 aa.1
            track.is_playing b))
    else
      match artistAlbum with
      | none => Except.error PyExn.unboundLocal
      | some aa =>
        Except.ok (some (TrackData.mk track.item.id track.item.name aa.2 aa.1
          track.is_playing false))

/-- Embedding of `LCD_Spotify.offset_display_data`.  In the source the three
counters `offset_artist`, `offset_track`, `offset_album` are locals of the
method, assigned in both branches of the comparison: on a changed track
(dataclass inequality) all three are set to 0 after logging the new triple
(the f-string reads `current_track.artist`, an `AttributeError` when the
current snapshot is `None`); on an unchanged track each is "incremented" by
reading itself before any assignment — in Python an `UnboundLocalError`, since
the locals never received a value on this call and do not persist across
calls.  The result pairs the offset triple with the updated `last_track`. -/
def LCD_Spotify.offset_display_data (last_track current_track : Option TrackData) :
    Except PyExn ((Nat × Nat × Nat) × Option TrackData) :=
  if optDataclassNe last_track current_track then
    match current_track with
    | none => Except.error PyExn.attributeErr
    | some _ => Except.ok ((0, 0, 0), current_track)
  else
    Except.error PyExn.unboundLocal

/-- Embedding of `LCD_Spotify.offset_wrap`: `substr_wrap` with the LCD width
as the window and the four-space `WRAP_PAD`. -/
def LCD_Spotify.offset_wrap (width : Nat) (string : String) (offset : Nat) : String :=
  substr_wrap string offset width WRAP_PAD

/-- Per-tick environment of the legacy `LCD_Spotify.single_step`: the clock
reading, the host name and first non-loopback IPv4 address, the formatted
time and date strings, and the collaborator responses for this tick's poll. -/
structure Env where
  now : Int
  hostname : String
  net_addr : String
  time_hms : String
  date_ymd : String
  poll_main : MainResp
  poll_liked : LikedResp
deriving DecidableEq

/-- Embedding of the legacy `LCD_Spotify.single_step`.  Every fourth tick
(`bip = 0`) the track data is polled first; then `bip` advances modulo
`BIPS = 4`; then exactly one of the three display modes writes its lines: the
network info when the countdown is within the timeout, the track lines when a
track is playing (album only on displays with more than 2 rows), the clock
otherwise.  The result lists the `lcd.text` writes of the tick as
(row, text) pairs, in order, together with the resulting state or the Python
exception that aborted the tick; an aborted tick has performed no writes,
because both possible raises happen before the first write. -/
def LCD_Spotify.single_step (st : LCD_Spotify) (env : Env) :
    List (Nat × String) × Except PyExn LCD_Spotify :=
  let polled : Except PyExn (Option TrackData) :=
    if st.bip = 0 then
      LCD_Spotify.retrieve_track_data st.current_track env.poll_main env.poll_liked
    else Except.ok st.current_track
  match polled with
  | Except.error e => ([], Except.error e)
  | Except.ok cur =>
    let st1 : LCD_Spotify := { st with current_track := cur, bip := (st.bip + 1) % 4 }
    if env.now - st.countdown < st.timeout then
      ([(1, "HOST: " ++ env.hostname), (2, "IP: " ++ env.net_addr)], Except.ok st1)
    else
      match cur with
      | some t =>
        if t.is_playing then
          let artist_display := if t.is_liked then CGRAM_CHR1 ++ t.artist else t.artist
          match LCD_Spotify.offset_display_data st1.last_track cur with
          | Except.error e => ([], Except.error e)
          | Except.ok (offsets, last1) =>
            let artist := LCD_Spotify.offset_wrap st.width artist_display offsets.1
            let track := LCD_Spotify.offset_wrap st.width t.name offsets.2.1
            let album := LCD_Spotify.offset_wrap st.width t.album offsets.2.2
            ((if st.rows > 2 then [(1, artist), (2, track), (3, album)]
              else [(1, artist), (2, track)]),
             Except.ok { st1 with last_track := last1 })
        else
          ([(1, "    " ++ env.time_hms ++ "   "), (2, "   " ++ env.date_ymd ++ "   ")],
           Except.ok st1)
      | none =>
        ([(1, "    " ++ env.time_hms ++ "   "), (2, "   " ++ env.date_ymd ++ "   ")],
         Except.ok st1)

/-- Identity equality between optional snapshots, spelled out as a
proposition: the four identity fields id, name, album, artist agree (and
absence equals only absence).  This is the equality the spec's change
detection is stated with. -/
def optIdentEq (a b : Option TrackData) : Prop :=
  match a, b with
  | none, none => True
  | some x, some y => x.id = y.id ∧ x.name = y.name ∧ x.album = y.album ∧ x.artist = y.artist
  | _, _ => False

/-- Concrete playing, not-liked snapshot used as a test input. -/
def tFixture : TrackData := TrackData.mk "id1" "Song" "Album" "Artist" true false

/-- Concrete playing, liked snapshot used as a test input. -/
def trackA : TrackData := TrackData.mk "idA" "Song A" "Album A" "Artist A" true true

/-- Concrete paused snapshot used as a test input. -/
def tPaused : TrackData := TrackData.mk "idP" "Song P" "Album P" "Artist P" false false

/-- Raw collaborator payload for a different track, used as a test input. -/
def rawB : RawPlaying :=
  RawPlaying.mk (RawItem.mk "idB" "Song B" ["Artist B"] "Album B" "" "") "track" true

/-- Manager state whose current and last snapshots are both `trackA`. -/
def mgrA : SpotifyManager := SpotifyManager.mk (some trackA) (some trackA)

/-- Manager state with no current track. -/
def mgrNone : SpotifyManager := SpotifyManager.mk none none

/-- Manager state whose current track is paused. -/
def mgrPaused : SpotifyManager := SpotifyManager.mk (some tPaused) none

/-- Manager state whose current track is playing and liked. -/
def mgrLiked : SpotifyManager := SpotifyManager.mk (some trackA) none

/-- Manager state whose current track is playing and not liked. -/
def mgrUnliked : SpotifyManager := SpotifyManager.mk (some tFixture) none

/-- Copy of `tFixture` that differs only in the is_playing and is_liked
fields. -/
def tFlipped : TrackData := TrackData.mk "id1" "Song" "Album" "Artist" false true

/-- Manager state whose last snapshot is `tFixture` and whose current snapshot
is `tFlipped` (same identity fields, different playback/liked flags). -/
def mgrFlipped : SpotifyManager := SpotifyManager.mk (some tFlipped) (some tFixture)

/-- The one-character string "ǣ" (U+01E3, LATIN SMALL LETTER AE WITH MACRON):
missing from the outlier table (which does list ǽ, U+01FD), and canonically
decomposing to æ followed by a combining macron. -/
def aeMacron : String := String.mk [Char.ofNat 0x1E3]

/-- Display state within the IP-timeout window: `bip = 1` (no poll this tick),
countdown origin 0, timeout 10, a 16x2 LCD, no track. -/
def stNet : LCD_Spotify := LCD_Spotify.mk 1 0 10 16 2 none none

/-- Environment for `stNet`: clock reading 0 (within the timeout window). -/
def envNet : Env :=
  Env.mk 0 "pi" "192.168.0.2" "12:00:00" "2026-10-12" MainResp.timeout LikedResp.timeout

/-- Display state past the IP-timeout window and displaying `tFixture`, with
the same snapshot already rendered last tick (`bip = 1`: no poll). -/
def stSame : LCD_Spotify := LCD_Spotify.mk 1 (-100) 10 16 2 (some tFixture) (some tFixture)

/-- Environment for `stSame`: clock reading 0, so the countdown expired 100
ticks ago. -/
def envSame : Env := Env.mk 0 "pi" "192.168.0.2" "12:00:00" "2026-10-12" MainResp.timeout
  LikedResp.timeout

/-- Reflexivity of the hand-written snapshot equality. -/
theorem TrackData.eq_refl (t : TrackData) : TrackData.eq t t = true := by
  simp [TrackData.eq]

/-- The six-field dataclass equality refines the four-field identity
equality. -/
theorem TrackData.eq_of_dataclassEq (a b : TrackData)
    (h : TrackData.dataclassEq a b = true) : TrackData.eq a b = true := by
  simp only [TrackData.dataclassEq, Bool.and_eq_true] at h
  simp [TrackData.eq, h.1.1, h.1.2, h.2]

/-- The boolean optional-snapshot inequality decides the propositional
identity equality (negatively). -/
theorem optNe_eq_true_iff (a b : Option TrackData) :
    optNe a b = true ↔ ¬ optIdentEq a b := by
  cases a <;> cases b <;>
    simp [optNe, optIdentEq, TrackData.ne, TrackData.eq, Bool.and_eq_true, beq_iff_eq,
      and_assoc]
  tauto

/-- The boolean optional-snapshot inequality is false exactly on identically
equal snapshots. -/
theorem optNe_eq_false_iff (a b : Option TrackData) :
    optNe a b = false ↔ optIdentEq a b := by
  rw [← Bool.not_eq_true, optNe_eq_true_iff, not_not]

/-- An optional snapshot never differs from itself. -/
theorem optNe_self (a : Option TrackData) : optNe a a = false := by
  cases a <;> simp [optNe, TrackData.ne, TrackData.eq_refl]

/-- Identity equality is reflexive. -/
theorem optIdentEq_refl (a : Option TrackData) : optIdentEq a a := by
  cases a <;> simp [optIdentEq]

/-- The four-field inequality forces the six-field dataclass inequality, over
optional snapshots. -/
theorem optDataclassNe_of_optNe (a b : Option TrackData)
    (h : optNe a b = true) : optDataclassNe a b = true := by
  cases a with
  | none => cases b <;> simp_all [optNe, optDataclassNe]
  | some x =>
    cases b with
    | none => rfl
    | some y =>
      simp only [optNe, TrackData.ne, Bool.not_eq_true'] at h
      simp only [optDataclassNe, Bool.not_eq_true']
      cases hdc : TrackData.dataclassEq x y with
      | false => rfl
      | true => exact absurd (TrackData.eq_of_dataclassEq x y hdc) (by simp [h])

/-- C1: the cyclic substring wrap function satisfies the spec's reference
definition: for every string, every integer start, every length and every pad,
if the text fits it is returned unchanged, and otherwise the result is the
concatenation of `buffer[(start + i) mod len(buffer)]` for `i` below `length`,
where `buffer = text ++ pad`. -/
theorem substr_wrap_matches_spec (text : String) (start : Int) (length : Nat) (pad : String) :
    substr_wrap text start length pad = wrapSpec text start length pad := by
  unfold substr_wrap wrapSpec add_to_max
  by_cases h : text.data.length ≤ length
  · rw [if_pos h, if_pos h]
  · rw [if_neg h, if_neg h]
    refine congrArg String.mk (List.map_congr_left fun i _ => ?_)
    rw [Int.fmod_eq_emod _ (Int.natCast_nonneg _)]

/-- C2 counterexample: the spec's third example output is wrong on the code.
Reading 5 characters cyclically from the buffer "0123456789 " (length 11)
starting at index 8 visits indices 8, 9, 10, 0, 1, i.e. the characters
'8', '9', ' ', '0', '1' — the result is "89 01", not the "890 1" printed in
the spec (and in the source docstring, whose example is a typo contradicting
the code right below it and the spec's own reference definition). -/
theorem substr_wrap_third_example_is_wrong :
    substr_wrap "0123456789" 8 5 " " ≠ "890 1" := by decide

/-- C2 amended: the wrap function returns the spec's first two example outputs
as stated, and on the third example input it returns "89 01" (the pad space
appears between the end of the text and the wrapped-around repeat). -/
theorem substr_wrap_examples :
    substr_wrap "0123456789" 2 5 "" = "23456" ∧
    substr_wrap "0123456789" 7 5 "" = "78901" ∧
    substr_wrap "0123456789" 8 5 " " = "89 01" := by
  refine ⟨?_, ?_, ?_⟩ <;> rfl

/-- C3: on a tick whose displayed track is unchanged, the offsets do NOT
advance by 1 — the legacy `offset_display_data` raises `UnboundLocalError`
instead, because the three offset counters are locals read before assignment
in the unchanged-track branch and are never persisted across calls.  The
second conjunct runs a whole display tick on state `stSame` (countdown
expired, playing track identical to the last rendered one): the tick writes
nothing and aborts with the same error, so a scroll step never happens. -/
theorem offset_display_data_crashes_on_unchanged_track :
    LCD_Spotify.offset_display_data (some tFixture) (some tFixture) =
      Except.error PyExn.unboundLocal ∧
    LCD_Spotify.single_step stSame envSame = ([], Except.error PyExn.unboundLocal) := by
  exact ⟨rfl, rfl⟩

/-- C6: the diacritic-removal function is not idempotent.  On "ǣ" (U+01E3,
absent from the outlier table although its æ-with-acute sibling ǽ is present)
one application yields "æ" — NFD decomposes ǣ into æ plus a combining macron
and only the macron is dropped — while a second application maps æ through
the outlier table to "ae". -/
theorem remove_diacritics_not_idempotent :
    remove_diacritics (remove_diacritics aeMacron) ≠ remove_diacritics aeMacron ∧
    remove_diacritics aeMacron = "æ" ∧
    remove_diacritics (remove_diacritics aeMacron) = "ae" := by
  refine ⟨?_, ?_, ?_⟩ <;> decide

/-- C4: whenever the change-detection signal is true (the snapshots differ
under identity equality) and a track is displayed, the legacy
`offset_display_data` resets all three scroll offsets to 0 together on that
tick; and on no tick whatsoever does it produce a partial reset — every offset
triple it ever returns is exactly (0, 0, 0).  (A four-field difference forces
the six-field dataclass difference that the code branches on.) -/
theorem offsets_reset_together :
    (∀ (last : Option TrackData) (t : TrackData),
      optNe last (some t) = true →
      LCD_Spotify.offset_display_data last (some t) = Except.ok ((0, 0, 0), some t)) ∧
    (∀ (last cur : Option TrackData) (offsets : Nat × Nat × Nat) (l1 : Option TrackData),
      LCD_Spotify.offset_display_data last cur = Except.ok (offsets, l1) →
      offsets = (0, 0, 0)) := by
  constructor
  · intro last t h
    have hdc := optDataclassNe_of_optNe last (some t) h
    simp [LCD_Spotify.offset_display_data, hdc]
  · intro last cur offsets l1 h
    unfold LCD_Spotify.offset_display_data at h
    by_cases hdc : optDataclassNe last cur = true
    · rw [if_pos hdc] at h
      cases cur with
      | none => exact absurd h (by simp)
      | some t =>
        have := (Except.ok.injEq _ _).mp h
        exact congrArg Prod.fst this.symm
    · rw [if_neg hdc] at h
      exact absurd h (by simp)

/-- C4 witness: at the concrete input of a first tick (nothing rendered yet,
`tFixture` playing) the change signal is true and the reset produces the
all-zero triple; the second application confirms the returned triple is the
total reset. -/
theorem offsets_reset_together_witness :
    LCD_Spotify.offset_display_data none (some tFixture) =
      Except.ok ((0, 0, 0), some tFixture) ∧
    ((0 : Nat), (0 : Nat), (0 : Nat)) = ((0 : Nat), (0 : Nat), (0 : Nat)) :=
  ⟨offsets_reset_together.1 none tFixture rfl,
   offsets_reset_together.2 none (some tFixture) (0, 0, 0) (some tFixture) rfl⟩

/-- C5: the hand-written snapshot equality of `spotify_manager.TrackData`
compares exactly the four identity fields — two snapshots are equal if and
only if id, name, album and artist agree, regardless of is_playing and
is_liked; consequently, when the current snapshot differs from the last one
only in is_playing/is_liked, the change signal `update_last_track` reports no
change and leaves the manager untouched, so the scroll offsets it governs are
never reset by such a change. -/
theorem track_eq_compares_identity_fields :
    (∀ a b : TrackData, TrackData.eq a b = true ↔
      (a.id = b.id ∧ a.name = b.name ∧ a.album = b.album ∧ a.artist = b.artist)) ∧
    (∀ (m : SpotifyManager) (t : TrackData) (p l : Bool),
      m.last_track = some t →
      m.current_track = some (TrackData.mk t.id t.name t.album t.artist p l) →
      SpotifyManager.update_last_track m = (false, m)) := by
  constructor
  · intro a b
    simp [TrackData.eq, Bool.and_eq_true, beq_iff_eq, and_assoc]
  · intro m t p l hlast hcur
    simp [SpotifyManager.update_last_track, hlast, hcur, optNe, TrackData.ne, TrackData.eq]

/-- C5 witness: concrete snapshots differing only in is_playing and is_liked
compare equal, and the manager state `mgrFlipped` built from them raises no
change signal. -/
theorem track_eq_compares_identity_fields_witness :
    TrackData.eq tFixture tFlipped = true ∧
    SpotifyManager.update_last_track mgrFlipped = (false, mgrFlipped) :=
  ⟨(track_eq_compares_identity_fields.1 tFixture tFlipped).mpr ⟨rfl, rfl, rfl, rfl⟩,
   track_eq_compares_identity_fields.2 mgrFlipped tFixture false true rfl rfl⟩

/-- C7: whenever the clock reading is within the IP-timeout window of the
countdown origin, the display tick writes only the two network-info lines —
the hostname on line 1 and the IP on line 2 — and never a track or clock
line, whatever the track state is.  Precisely: every tick that completes
writes exactly those two lines, and a tick aborted by an exception from the
poll (which precedes every write) writes nothing at all — in particular, no
track or clock line is ever written inside the window. -/
theorem network_info_preempts (st : LCD_Spotify) (env : Env)
    (h : env.now - st.countdown < st.timeout) :
    (∀ st1, (LCD_Spotify.single_step st env).2 = Except.ok st1 →
      (LCD_Spotify.single_step st env).1 =
        [(1, "HOST: " ++ env.hostname), (2, "IP: " ++ env.net_addr)]) ∧
    ((LCD_Spotify.single_step st env).1 =
        [(1, "HOST: " ++ env.hostname), (2, "IP: " ++ env.net_addr)] ∨
      ((LCD_Spotify.single_step st env).1 = [] ∧
        ∃ e, (LCD_Spotify.single_step st env).2 = Except.error e)) := by
  unfold LCD_Spotify.single_step
  cases hpol : (if st.bip = 0 then
      LCD_Spotify.retrieve_track_data st.current_track env.poll_main env.poll_liked
    else Except.ok st.current_track) with
  | error e =>
    simp only [hpol]
    refine ⟨fun st1 hab => absurd hab (by simp), Or.inr ⟨?_, e, ?_⟩⟩ <;> trivial
  | ok cur =>
    simp only [hpol, if_pos h]
    refine ⟨fun st1 _ => ?_, Or.inl ?_⟩ <;> trivial

/-- C7 witness: on the concrete state `stNet` (countdown origin 0, timeout 10,
no poll due this tick) and clock reading 0, the tick writes exactly the
hostname and IP lines. -/
theorem network_info_preempts_witness :
    (LCD_Spotify.single_step stNet envNet).1 =
      [(1, "HOST: pi"), (2, "IP: 192.168.0.2")] :=
  (network_info_preempts stNet envNet (by decide)).1
    (LCD_Spotify.mk 2 0 10 16 2 none none) rfl

/-- C8 counterexample: a transient timeout from the collaborator during a poll
is not always a no-op.  With current snapshot `trackA`, a successful main
query answering the raw track `rawB` and a liked-subquery that times out, the
manager replaces the snapshot (with is_liked defaulted to false), so the
artist accessor changes — the caught timeout did not preserve the state. -/
theorem retrieve_liked_timeout_not_noop :
    SpotifyManager.retrieve_track_data mgrA (MainResp.ok (some rawB)) LikedResp.timeout ≠
      mgrA ∧
    SpotifyManager.get_artist
        (SpotifyManager.retrieve_track_data mgrA (MainResp.ok (some rawB)) LikedResp.timeout) ≠
      SpotifyManager.get_artist mgrA := by
  refine ⟨?_, ?_⟩ <;> decide

/-- C8 amended: when the main current-track query itself fails with a
transient timeout, the poll is a no-op — the snapshot is preserved, the
artist/track-name/album-name accessors return the previous tick's values, and
(the model being total) nothing propagates to the caller.  A timeout of the
liked-subquery alone is also swallowed, but then the snapshot is still
replaced, exactly as if the subquery had answered false. -/
theorem retrieve_main_timeout_noop (m : SpotifyManager) (liked : LikedResp) :
    SpotifyManager.retrieve_track_data m MainResp.timeout liked = m ∧
    SpotifyManager.get_artist (SpotifyManager.retrieve_track_data m MainResp.timeout liked) =
      SpotifyManager.get_artist m ∧
    SpotifyManager.get_track_name (SpotifyManager.retrieve_track_data m MainResp.timeout liked) =
      SpotifyManager.get_track_name m ∧
    SpotifyManager.get_album_name (SpotifyManager.retrieve_track_data m MainResp.timeout liked) =
      SpotifyManager.get_album_name m ∧
    (∀ raw : RawPlaying,
      SpotifyManager.retrieve_track_data m (MainResp.ok (some raw)) LikedResp.timeout =
        SpotifyManager.retrieve_track_data m (MainResp.ok (some raw)) (LikedResp.ok false)) :=
  ⟨rfl, rfl, rfl, rfl, fun _ => rfl⟩

/-- C9: `toggle_track_liked` issues no collaborator call and raises nothing
unless a current snapshot exists with is_playing true; with such a snapshot it
issues the saved-tracks delete request when the track is liked and the
saved-tracks add request otherwise, leaving the manager state unchanged; and
every outcome — including a transient timeout response — is a normal return,
never an exception. -/
theorem toggle_track_liked_contract :
    (∀ (m : SpotifyManager) (resp : ApiResp), m.current_track = none →
      SpotifyManager.toggle_track_liked m resp = Except.ok ([], m)) ∧
    (∀ (m : SpotifyManager) (resp : ApiResp) (t : TrackData), m.current_track = some t →
      t.is_playing = false →
      SpotifyManager.toggle_track_liked m resp = Except.ok ([], m)) ∧
    (∀ (m : SpotifyManager) (resp : ApiResp) (t : TrackData), m.current_track = some t →
      t.is_playing = true → t.is_liked = true →
      SpotifyManager.toggle_track_liked m resp =
        Except.ok ([SpotifyCall.saved_tracks_delete [t.id]], m)) ∧
    (∀ (m : SpotifyManager) (resp : ApiResp) (t : TrackData), m.current_track = some t →
      t.is_playing = true → t.is_liked = false →
      SpotifyManager.toggle_track_liked m resp =
        Except.ok ([SpotifyCall.saved_tracks_add [t.id]], m)) ∧
    (∀ (m : SpotifyManager) (resp : ApiResp),
      ∃ r, SpotifyManager.toggle_track_liked m resp = Except.ok r) := by
  refine ⟨?_, ?_, ?_, ?_, ?_⟩
  · intro m resp h
    simp [SpotifyManager.toggle_track_liked, h]
  · intro m resp t h hp
    cases resp <;> simp [SpotifyManager.toggle_track_liked, h, hp]
  · intro m resp t h hp hl
    cases resp <;> simp [SpotifyManager.toggle_track_liked, h, hp, hl]
  · intro m resp t h hp hl
    cases resp <;> simp [SpotifyManager.toggle_track_liked, h, hp, hl]
  · intro m resp
    cases hc : m.current_track with
    | none => exact ⟨([], m), by simp [SpotifyManager.toggle_track_liked, hc]⟩
    | some t =>
      cases hp : t.is_playing with
      | false =>
        exact ⟨([], m), by cases resp <;> simp [SpotifyManager.toggle_track_liked, hc, hp]⟩
      | true =>
        refine ⟨((if t.is_liked then [SpotifyCall.saved_tracks_delete [t.id]]
          else [SpotifyCall.saved_tracks_add [t.id]]), m), ?_⟩
        cases resp <;> simp [SpotifyManager.toggle_track_liked, hc, hp]

/-- C9 witness: the four cases at concrete manager states — no snapshot,
paused snapshot, playing liked snapshot (under a timing-out collaborator),
playing not-liked snapshot. -/
theorem toggle_track_liked_contract_witness :
    SpotifyManager.toggle_track_liked mgrNone ApiResp.ok = Except.ok ([], mgrNone) ∧
    SpotifyManager.toggle_track_liked mgrPaused ApiResp.ok = Except.ok ([], mgrPaused) ∧
    SpotifyManager.toggle_track_liked mgrLiked ApiResp.timeout =
      Except.ok ([SpotifyCall.saved_tracks_delete ["idA"]], mgrLiked) ∧
    SpotifyManager.toggle_track_liked mgrUnliked ApiResp.ok =
      Except.ok ([SpotifyCall.saved_tracks_add ["id1"]], mgrUnliked) :=
  ⟨toggle_track_liked_contract.1 mgrNone ApiResp.ok rfl,
   toggle_track_liked_contract.2.1 mgrPaused ApiResp.ok tPaused rfl rfl,
   toggle_track_liked_contract.2.2.1 mgrLiked ApiResp.timeout trackA rfl rfl rfl,
   toggle_track_liked_contract.2.2.2.1 mgrUnliked ApiResp.ok tFixture rfl rfl rfl⟩

/-- C10: `update_last_track` returns true exactly when the last snapshot
differs from the current one under identity equality at call time; on return
the last snapshot identity-equals the current one and the current snapshot is
untouched; hence an immediately repeated call returns false and changes
nothing. -/
theorem update_last_track_contract (m : SpotifyManager) :
    ((SpotifyManager.update_last_track m).1 = true ↔
      ¬ optIdentEq m.last_track m.current_track) ∧
    optIdentEq (SpotifyManager.update_last_track m).2.last_track
      (SpotifyManager.update_last_track m).2.current_track ∧
    (SpotifyManager.update_last_track m).2.current_track = m.current_track ∧
    SpotifyManager.update_last_track (SpotifyManager.update_last_track m).2 =
      (false, (SpotifyManager.update_last_track m).2) := by
  refine ⟨?_, ?_, ?_, ?_⟩
  · simpa [SpotifyManager.update_last_track] using optNe_eq_true_iff m.last_track m.current_track
  · cases hflag : optNe m.last_track m.current_track with
    | true =>
      simp only [SpotifyManager.update_last_track, hflag, if_true]
      exact optIdentEq_refl m.current_track
    | false =>
      simp only [SpotifyManager.update_last_track, hflag, if_false]
      exact (optNe_eq_false_iff _ _).mp hflag
  · cases hflag : optNe m.last_track m.current_track <;>
      simp [SpotifyManager.update_last_track, hflag]
  · cases hflag : optNe m.last_track m.current_track with
    | true =>
      simp [SpotifyManager.update_last_track, hflag, optNe_self]
    | false =>
      simp [SpotifyManager.update_last_track, hflag]
